import Mathlib

/-!
Verification of the Corrade TestSuite test-execution engine
(`src/Corrade/TestSuite/Tester.h` and its conformance fixture
`src/Corrade/TestSuite/Test/TesterTest.cpp`).

The repository snapshot contains the `Tester` class header (with the
template bodies of `Tester::compareWith` and `Tester::verify`, the
`CommonType` comparison-type resolver and all check macros) and the
conformance test `TesterTest.cpp`, which pins the exact text produced by a
full run of an 18-case fixture suite, of a suite filtered with
`--only "11 14 4 9" --skip 14`, and of an empty suite.  The out-of-line
implementation file (`Tester.cpp`: `exec`, `verifyInternal`, `skip`,
`padding`, `registerTestCase`, the `ExpectedFailure` constructor and
destructor) is not part of the snapshot; those operations are modelled from
the specification, and every such definition is calibrated against, and
checked below to reproduce byte-for-byte, the expected output strings that
`TesterTest.cpp` asserts.
-/

set_option autoImplicit false
set_option maxRecDepth 8000

namespace Corrade

/-- Which of the two output streams (`logOutput` / `errorOutput` passed to
`Tester::exec`) a piece of output was written to. -/
inductive StreamKind where
  | log
  | err
deriving DecidableEq, BEq, Repr

/-- The mutable per-suite run state: the private data members of `Tester`
(`_testCaseId`, `_testCaseName`, `_testCaseLine`, `_checkCount`,
`_expectedFailure`, `_testName`, `_testFilename`) together with the
run-loop counters (`errorCount`, `noCheckCount`) and the produced output.
Each output entry is the full text written by one `Debug`/`Error`
statement, including its terminating newline.  `padMax` is the reference
number whose digit count fixes the padded width of printed case ordinals:
`Tester::compareWith` (Tester.h:486, 499) passes `_testCases.size()` — the
registry size, which nothing in the snapshot mutates — as the second
argument of `padding`, so `padMax` holds the number of registered cases,
also on filtered runs. -/
structure RunState where
  suiteName : String
  testFilename : String
  padMax : Nat
  testCaseId : Nat
  testCaseName : String
  testCaseLine : Nat
  checkCount : Nat
  errorCount : Nat
  noCheckCount : Nat
  expectedFailure : Option String
  output : List (StreamKind × String)
deriving DecidableEq, Repr

/-- The case-fatal control signals of the engine: `Tester::Exception`
(check failure / unexpected pass) and `Tester::SkipException`, plus the
absence of a signal.  They are thrown by the check primitives and caught at
the per-case boundary of the run loop. -/
inductive Signal where
  | none
  | failed
  | skipped
deriving DecidableEq, Repr

/-- Terminal outcome of one executed case, as recorded by the run loop. -/
inductive Outcome where
  | ok
  | failed
  | skipped
  | empty
deriving DecidableEq, Repr

/-- Number of decimal digits of `n` as printed. -/
def digitCount (n : Nat) : Nat :=
  (Nat.repr n).length

/-- Modelled from the spec: `Tester::padding` (defined in the missing
`Tester.cpp`).  It left-pads the printed ordinal `number` to the digit
count of `max`.  The pad character is `'0'`, as fixed by the expected
output asserted in `TesterTest.cpp` (`"     ? [01] <unknown>()"` for case 1
of 18). -/
def padding (number max : Nat) : String :=
  String.mk (List.replicate (digitCount max - digitCount number) '0')

/-- The common head of a check-outcome report line, as composed by
`Tester::compareWith` (Tester.h:483-504): the tag, the bracketed padded
ordinal, the case name, source file, source line, and the line break with
the 8-space continuation indent (`"\n       "` followed by the space the
stream inserts before the next item). -/
def checkHeader (tag : String) (s : RunState) : String :=
  tag ++ " [" ++ padding s.testCaseId s.padMax ++ toString s.testCaseId ++ "] " ++
  s.testCaseName ++ " at " ++ s.testFilename ++ " on line " ++
  toString s.testCaseLine ++ " \n        "

/-- FAIL line of a failed comparison: header plus the comparator's
`printErrorMessage` text (Tester.h:496-505). -/
def failCompareLine (s : RunState) (detail : String) : String :=
  checkHeader "  FAIL" s ++ detail ++ "\n"

/-- XFAIL line of an expectedly-failed comparison (Tester.h:483-492). -/
def xfailCompareLine (s : RunState) (message actual expected : String) : String :=
  checkHeader " XFAIL" s ++ message ++ " " ++ actual ++ " and " ++ expected ++
  " are not equal.\n"

/-- XPASS line of an unexpectedly-passed comparison (Tester.h:496-506). -/
def xpassCompareLine (s : RunState) (actual expected : String) : String :=
  checkHeader " XPASS" s ++ actual ++ " and " ++ expected ++
  " are not expected to be equal.\n"

/-- Modelled from the spec: FAIL line of a failed `verify` check, carrying
the formatted "Expression `<expression>` failed." message (spec §4.2;
text fixed by TesterTest.cpp: `"Expression 5 != 5 failed."`). -/
def failVerifyLine (s : RunState) (expression : String) : String :=
  checkHeader "  FAIL" s ++ "Expression " ++ expression ++ " failed.\n"

/-- Modelled from the spec: XFAIL line of an expectedly-failed `verify`
check (scope message followed by the expression message). -/
def xfailVerifyLine (s : RunState) (message expression : String) : String :=
  checkHeader " XFAIL" s ++ message ++ " Expression " ++ expression ++ " failed.\n"

/-- Modelled from the spec: XPASS line of an unexpectedly-passed `verify`
check ("... was expected to fail."). -/
def xpassVerifyLine (s : RunState) (expression : String) : String :=
  checkHeader " XPASS" s ++ "Expression " ++ expression ++ " was expected to fail.\n"

/-- Modelled from the spec: SKIP report line (no source location, the skip
message on the continuation line). -/
def skipLine (s : RunState) (message : String) : String :=
  "  SKIP [" ++ padding s.testCaseId s.padMax ++ toString s.testCaseId ++ "] " ++
  s.testCaseName ++ " \n        " ++ message ++ "\n"

/-- Modelled from the spec: OK report line of a passed case. -/
def okLine (s : RunState) : String :=
  "    OK [" ++ padding s.testCaseId s.padMax ++ toString s.testCaseId ++ "] " ++
  s.testCaseName ++ "\n"

/-- Modelled from the spec: placeholder report line of a case that
performed zero checks (`<unknown>()` as the name). -/
def unknownLine (s : RunState) : String :=
  "     ? [" ++ padding s.testCaseId s.padMax ++ toString s.testCaseId ++
  "] <unknown>()\n"

/-- Modelled from the spec: the run-start banner. -/
def startingLine (name : String) (count : Nat) : String :=
  "Starting " ++ name ++ " with " ++ toString count ++ " test cases...\n"

/-- Modelled from the spec: the final summary line; the trailing
"didn't contain any checks" clause appears only when `noChecks > 0`. -/
def finishedLine (name : String) (errors checks noChecks : Nat) : String :=
  "Finished " ++ name ++ " with " ++ toString errors ++ " errors out of " ++
  toString checks ++ " checks." ++
  (if 0 < noChecks then
    " " ++ toString noChecks ++ " test cases didn't contain any checks!"
   else "") ++ "\n"

/-- Modelled from the spec: the message printed when the registry holds no
test cases. -/
def noTestsLine (name : String) : String :=
  "No tests to run in " ++ name ++ "!\n"

/-- A comparator over actual type `α` and expected type `β`: the evaluation
predicate `Comparator<T>::operator()` and the failure-message renderer
`Comparator<T>::printErrorMessage`, which receives the two formatted
operand labels and produces the diagnostic text appended after the FAIL
header (cf. the `Comparator<StringLength>` specialization,
TesterTest.cpp:35-49). -/
structure Comparator (α β : Type) where
  op : α → β → Bool
  printErrorMessage : String → String → String

/-- `Tester::compareWith` (Tester.h:469-508): increments the check count,
evaluates the comparator; with no expected-failure scope active an equal
result is silent and a non-equal result prints a FAIL line to the error
output and raises the case-fatal signal; with a scope active a non-equal
result prints an XFAIL line to the log output and returns, and an equal
result prints an XPASS line to the error output and raises the case-fatal
signal. -/
def compareWith {α β : Type} (comparator : Comparator α β) (actual : String)
    (actualValue : α) (expected : String) (expectedValue : β)
    (s0 : RunState) : RunState × Signal :=
  let s := { s0 with checkCount := s0.checkCount + 1 }
  let equal := comparator.op actualValue expectedValue
  match s.expectedFailure with
  | Option.none =>
      if equal then (s, Signal.none)
      else
        ({ s with output := s.output ++
            [(StreamKind.err,
              failCompareLine s (comparator.printErrorMessage actual expected))] },
         Signal.failed)
  | Option.some message =>
      if equal then
        ({ s with output := s.output ++
            [(StreamKind.err, xpassCompareLine s actual expected)] },
         Signal.failed)
      else
        ({ s with output := s.output ++
            [(StreamKind.log, xfailCompareLine s message actual expected)] },
         Signal.none)

/-- Modelled from the spec: `Tester::verifyInternal` (declared Tester.h:255,
defined in the missing `Tester.cpp`; `Tester::verify`, Tester.h:510-513,
collapses the value to a `Bool` and forwards here).  Same outcome policy as
`compareWith`, with the "Expression ... failed." / "... was expected to
fail." messages fixed by the TesterTest.cpp expected output. -/
def verifyInternal (expression : String) (value : Bool)
    (s0 : RunState) : RunState × Signal :=
  let s := { s0 with checkCount := s0.checkCount + 1 }
  match s.expectedFailure with
  | Option.none =>
      if value then (s, Signal.none)
      else
        ({ s with output := s.output ++
            [(StreamKind.err, failVerifyLine s expression)] },
         Signal.failed)
  | Option.some message =>
      if value then
        ({ s with output := s.output ++
            [(StreamKind.err, xpassVerifyLine s expression)] },
         Signal.failed)
      else
        ({ s with output := s.output ++
            [(StreamKind.log, xfailVerifyLine s message expression)] },
         Signal.none)

/-- Modelled from the spec: `Tester::skip` (declared Tester.h:226): prints
the SKIP report line with the message and raises the distinct non-error
skip signal (`SkipException`, Tester.h:251), which terminates the current
case early and is never counted toward the failure tally.  It does not
increment the check count. -/
def skipInternal (message : String) (s : RunState) : RunState × Signal :=
  ({ s with output := s.output ++ [(StreamKind.log, skipLine s message)] },
   Signal.skipped)

/-- Modelled from the spec: `Tester::registerTestCase` (declared
Tester.h:247), invoked by every check macro via
`_CORRADE_REGISTER_TEST_CASE()` with `__func__` and `__LINE__`: records the
display name (function identifier plus `"()"`) and current source line of
the active check. -/
def registerTestCase (name : String) (line : Nat) (s : RunState) : RunState :=
  { s with testCaseName := name ++ "()", testCaseLine := line }

/-- One statement of a test-case body, in the primitive vocabulary a case
body uses: the check macros (each of which first registers the enclosing
function name and its source line), the RAII expected-failure scope
boundaries (`CORRADE_EXPECT_FAIL` / `CORRADE_EXPECT_FAIL_IF` construction
and end-of-scope destruction), and a plain debug print (used by the
fixture's setup/teardown hooks).  A `compare` statement carries the
comparator's evaluation result and rendered failure message for the two
operands at hand, so running it exercises `compareWith` with a comparator
producing exactly those. -/
inductive CheckAction where
  | verify (expression : String) (line : Nat) (value : Bool)
  | compare (actual expected : String) (line : Nat) (equal : Bool)
      (errorMessage : String)
  | skipCase (line : Nat) (message : String)
  | expectFail (message : String) (enabled : Bool)
  | endExpectFail
  | print (text : String)
deriving Repr

/-- Execute one body statement.  Check statements register the test case
first (the macro expansion order) and then run the corresponding
primitive; a disabled expected-failure scope behaves as if absent
(spec §4.2); leaving a scope clears the active registration. -/
def runAction (funcName : String) (act : CheckAction)
    (s : RunState) : RunState × Signal :=
  match act with
  | CheckAction.verify e line v =>
      verifyInternal e v (registerTestCase funcName line s)
  | CheckAction.compare a e line eq msg =>
      compareWith (Comparator.mk (fun _ _ => eq) (fun _ _ => msg)) a () e ()
        (registerTestCase funcName line s)
  | CheckAction.skipCase line m =>
      skipInternal m (registerTestCase funcName line s)
  | CheckAction.expectFail m enabled =>
      ({ s with expectedFailure :=
          if enabled then Option.some m else s.expectedFailure }, Signal.none)
  | CheckAction.endExpectFail =>
      ({ s with expectedFailure := Option.none }, Signal.none)
  | CheckAction.print t =>
      ({ s with output := s.output ++ [(StreamKind.log, t ++ "\n")] }, Signal.none)

/-- Execute a body: statements run in order; a raised case-fatal or skip
signal aborts the remaining statements (non-local control transfer caught
at the per-case boundary). -/
def runActions (funcName : String) (acts : List CheckAction)
    (s : RunState) : RunState × Signal :=
  match acts with
  | [] => (s, Signal.none)
  | act :: rest =>
      let r := runAction funcName act s
      match r.2 with
      | Signal.none => runActions funcName rest r.1
      | sig => (r.1, sig)

/-- A registered test case: the display name inferred from the member
function's identifier and the bound body. -/
structure TestCaseDef where
  name : String
  body : List CheckAction

/-- The optional setup/teardown pair shared by a registration group (the
second `addTests` overload); the hooks may print and may themselves raise
signals, and receive the current case ordinal (the fixture's hooks print
it via `testCaseId()`). -/
structure Hooks where
  setup : Option (Nat → List CheckAction)
  teardown : Option (Nat → List CheckAction)

/-- Result of running one selected case: the state afterwards, how many
times the group's setup and teardown hooks ran, and the recorded terminal
outcome. -/
structure CaseRun where
  state : RunState
  setupRuns : Nat
  teardownRuns : Nat
  outcome : Outcome

/-- Modelled from the spec: run the group's setup hook, if any, under the
same fatal-signal isolation as the case body. -/
def runSetup (hooks : Hooks) (ordinal : Nat)
    (s : RunState) : RunState × Nat × Signal :=
  match hooks.setup with
  | Option.some su =>
      let r := runActions "setup" (su ordinal) s
      (r.1, 1, r.2)
  | Option.none => (s, 0, Signal.none)

/-- Modelled from the spec: run the group's teardown hook, if any,
returning how many times it ran; a signal raised inside teardown is caught
at the per-case boundary and goes no further. -/
def runTeardown (hooks : Hooks) (ordinal : Nat)
    (s : RunState) : RunState × Nat :=
  match hooks.teardown with
  | Option.some td => ((runActions "teardown" (td ordinal) s).1, 1)
  | Option.none => (s, 0)

/-- Modelled from the spec: the tail of the per-case run-loop iteration,
dispatching on the signal the setup/body produced.  A case-fatal signal is
caught here: the failure is counted, the (already printed) report stands,
and teardown runs.  A skip signal runs teardown without counting a
failure.  With no signal, a case that registered no check is reported with
the `<unknown>()` placeholder and counted as check-less — and, as fixed by
the TesterTest.cpp expected output (no `"[16] tearing down..."` line for
the check-less `setupTeardownEmpty` case), its teardown is *not* run;
otherwise the OK line is printed and teardown runs. -/
def finishCase (hooks : Hooks) (ordinal : Nat) (setupRuns : Nat)
    (s2 : RunState) (sig : Signal) : CaseRun :=
  match sig with
  | Signal.failed =>
      let sE := { s2 with errorCount := s2.errorCount + 1,
                          expectedFailure := Option.none }
      let t := runTeardown hooks ordinal sE
      CaseRun.mk t.1 setupRuns t.2 Outcome.failed
  | Signal.skipped =>
      let t := runTeardown hooks ordinal { s2 with expectedFailure := Option.none }
      CaseRun.mk t.1 setupRuns t.2 Outcome.skipped
  | Signal.none =>
      if s2.testCaseName = "" then
        CaseRun.mk
          { s2 with output := s2.output ++ [(StreamKind.log, unknownLine s2)],
                    noCheckCount := s2.noCheckCount + 1 }
          setupRuns 0 Outcome.empty
      else
        let t := runTeardown hooks ordinal
          { s2 with output := s2.output ++ [(StreamKind.log, okLine s2)] }
        CaseRun.mk t.1 setupRuns t.2 Outcome.ok

/-- The setup/body stage of one run-loop iteration: the setup-run count
and the state/signal the body stage hands to `finishCase` (the body is
only entered when setup raised no signal).  This is the `try` block of the
per-case iteration. -/
def caseBody (hooks : Hooks) (ordinal : Nat) (tc : TestCaseDef)
    (s : RunState) : Nat × RunState × Signal :=
  let su := runSetup hooks ordinal s
  match su.2.2 with
  | Signal.none => (su.2.1, runActions tc.name tc.body su.1)
  | sig => (su.2.1, su.1, sig)

/-- Modelled from the spec: one iteration of `Tester::exec`'s run loop for
the selected case with registration ordinal `ordinal`: set the current
ordinal, clear the case name and any stale scope, run setup and (when
setup raised no signal) the body under fatal-signal isolation, then finish
per `finishCase`. -/
def runOneCase (hooks : Hooks) (ordinal : Nat) (tc : TestCaseDef)
    (s0 : RunState) : CaseRun :=
  let s := { s0 with testCaseId := ordinal, testCaseName := "",
                     expectedFailure := Option.none }
  let b := caseBody hooks ordinal tc s
  finishCase hooks ordinal b.1 b.2.1 b.2.2

/-- A registered suite: name and filename from `registerTest`, and the
ordered registry of cases, each tagged with its group's hooks. -/
structure Suite where
  name : String
  filename : String
  cases : List (TestCaseDef × Hooks)

/-- Modelled from the spec: the selection filter.  With a non-empty
`--only` list the active ordinals are the valid listed ones, kept in the
order they were given (as fixed by the TesterTest.cpp `skipOnly` expected
output, which lists case 11 before cases 4 and 9 for
`--only "11 14 4 9"`); otherwise all registered ordinals in registration
order.  `--skip` then removes ordinals from that set. -/
def selectCases (caseCount : Nat) (onlyIds skipIds : List Nat) : List Nat :=
  let base :=
    if onlyIds.isEmpty then (List.range caseCount).map (fun i => i + 1)
    else onlyIds.filter (fun i => decide (1 ≤ i ∧ i ≤ caseCount))
  base.filter (fun i => !(skipIds.contains i))

/-- Highest ordinal among the selected cases (0 when none) — the padding
width reference the spec's wording names; the code's actual reference is
the registry size (Tester.h:486, 499), and the two differ on filtered
runs. -/
def maxOrdinal (ids : List Nat) : Nat :=
  ids.foldr Nat.max 0

/-- Modelled from the spec: the run state at the start of a non-empty run:
all counters zero, no active scope, the start banner already written to
the log output, and the padding reference `padMax` set by `exec` to the
registry size — the `_testCases.size()` that the in-src
`Tester::compareWith` (Tester.h:486, 499) passes to `padding`. -/
def initState (suite : Suite) (padMax selectedCount : Nat) : RunState :=
  { suiteName := suite.name, testFilename := suite.filename, padMax := padMax,
    testCaseId := 0, testCaseName := "", testCaseLine := 0,
    checkCount := 0, errorCount := 0, noCheckCount := 0,
    expectedFailure := Option.none,
    output := [(StreamKind.log, startingLine suite.name selectedCount)] }

/-- Modelled from the spec: the run loop proper — each selected ordinal in
turn, each case isolated (a signal in one case never aborts the remaining
cases). -/
def execCases (suite : Suite) (ids : List Nat) (s : RunState) : RunState :=
  match ids with
  | [] => s
  | i :: rest =>
      match suite.cases[i - 1]? with
      | Option.some tc => execCases suite rest (runOneCase tc.2 i tc.1 s).state
      | Option.none => execCases suite rest s

/-- Modelled from the spec: `Tester::exec` (declared Tester.h:147).  With
an empty registry it prints only the "No tests to run" message and returns
exit code 2; otherwise it prints the banner, runs the selected cases, adds
the summary line, and returns 1 when at least one case failed, else 0.
The padding reference is the registry size (`_testCases.size()`, the
second argument the in-src Tester.h:486/499 hand to `padding`), not the
highest selected ordinal. -/
def exec (suite : Suite) (onlyIds skipIds : List Nat) : Nat × RunState :=
  if suite.cases.isEmpty then
    (2,
     { suiteName := suite.name, testFilename := suite.filename, padMax := 0,
       testCaseId := 0, testCaseName := "", testCaseLine := 0,
       checkCount := 0, errorCount := 0, noCheckCount := 0,
       expectedFailure := Option.none,
       output := [(StreamKind.log, noTestsLine suite.name)] })
  else
    let ids := selectCases suite.cases.length onlyIds skipIds
    let s1 := execCases suite ids
      (initState suite suite.cases.length ids.length)
    ((if 0 < s1.errorCount then 1 else 0),
     { s1 with output := s1.output ++
        [(StreamKind.log,
          finishedLine suite.name s1.errorCount s1.checkCount s1.noCheckCount)] })

/-- The entries written to one of the two streams, in order. -/
def streamOf (k : StreamKind) (out : List (StreamKind × String)) : List String :=
  (out.filter (fun e => e.1 == k)).map Prod.snd

/-- All output in write order, concatenated — what a caller passing the
same `std::stringstream` as both `logOutput` and `errorOutput` (as
TesterTest.cpp does) reads back. -/
def allOutput (out : List (StreamKind × String)) : String :=
  String.join (out.map Prod.snd)

/-- Modelled from the spec: the evaluation predicate of the default
`Comparator<T>` (its header `Comparator.h` is not part of the snapshot):
plain equality of the two values. -/
def defaultCompare {α : Type} [BEq α] (actualValue expectedValue : α) : Bool :=
  actualValue == expectedValue

/-- Modelled from the spec: the failure message of the default
`Comparator<T>` — "Values A and B are not the same, actual is <v> but
expected <v>" (spec §4.3), with the exact layout fixed by the
TesterTest.cpp expected output for the `nonEqual` case. -/
def defaultCompareMessage (actual expected actualPrinted expectedPrinted : String) :
    String :=
  "Values " ++ actual ++ " and " ++ expected ++
  " are not the same, actual is\n        " ++ actualPrinted ++
  " \n        but expected\n        " ++ expectedPrinted

/-- `Comparator<StringLength>::operator()` (TesterTest.cpp:39-41): the
string lengths differ by at most `epsilon`. -/
def stringLengthCompare (epsilon : Int) (actual expected : String) : Bool :=
  decide ((((actual.length : Int) - (expected.length : Int)).natAbs : Int) ≤ epsilon)

/-- `Comparator<StringLength>::printErrorMessage` (TesterTest.cpp:43-45),
rendered into the stream continuation. -/
def stringLengthMessage (epsilon : Int) (actual expected : String) : String :=
  "Length of actual " ++ actual ++ " doesn't match length of expected " ++
  expected ++ " with epsilon " ++ toString epsilon

/-- `Test::setup` (TesterTest.cpp:193-195): prints the marker with the
current case ordinal. -/
def setupActions (id : Nat) : List CheckAction :=
  [CheckAction.print ("       [" ++ toString id ++ "] setting up...")]

/-- `Test::teardown` (TesterTest.cpp:197-199). -/
def teardownActions (id : Nat) : List CheckAction :=
  [CheckAction.print ("       [" ++ toString id ++ "] tearing down...")]

/-- Hooks of the first registration group of `Test` (no setup/teardown). -/
def noHooks : Hooks := Hooks.mk Option.none Option.none

/-- Hooks of the second registration group of `Test`
(TesterTest.cpp:112-117). -/
def stHooks : Hooks := Hooks.mk (Option.some setupActions) (Option.some teardownActions)

/-- `Test::noChecks` (TesterTest.cpp:120-122). -/
def noChecksCase : TestCaseDef := TestCaseDef.mk "noChecks" []

/-- `Test::trueExpression` (TesterTest.cpp:124-126). -/
def trueExpressionCase : TestCaseDef :=
  TestCaseDef.mk "trueExpression" [CheckAction.verify "true" 125 true]

/-- `Test::falseExpression` (TesterTest.cpp:128-130). -/
def falseExpressionCase : TestCaseDef :=
  TestCaseDef.mk "falseExpression" [CheckAction.verify "5 != 5" 129 (5 != 5)]

/-- `Test::equal` (TesterTest.cpp:132-134). -/
def equalCase : TestCaseDef :=
  TestCaseDef.mk "equal"
    [CheckAction.compare "3" "3" 133 (defaultCompare 3 3)
      (defaultCompareMessage "3" "3" "3" "3")]

/-- `Test::nonEqual` (TesterTest.cpp:136-140), `a = 5`, `b = 3`. -/
def nonEqualCase : TestCaseDef :=
  TestCaseDef.mk "nonEqual"
    [CheckAction.compare "a" "b" 139 (defaultCompare 5 3)
      (defaultCompareMessage "a" "b" "5" "3")]

/-- `Test::expectFail` (TesterTest.cpp:142-155): a scope with two expected
failures, a check after the scope, and a conditionally-disabled scope
(`6*7 == 49` is false). -/
def expectFailCase : TestCaseDef :=
  TestCaseDef.mk "expectFail"
    [CheckAction.expectFail "The world is not mad yet." true,
     CheckAction.compare "2 + 2" "5" 145 (defaultCompare (2 + 2) 5)
       (defaultCompareMessage "2 + 2" "5" "4" "5"),
     CheckAction.verify "false == true" 146 (false == true),
     CheckAction.endExpectFail,
     CheckAction.verify "true" 149 true,
     CheckAction.expectFail "This is not our universe" (6 * 7 == 49),
     CheckAction.verify "true" 153 true,
     CheckAction.endExpectFail]

/-- `Test::unexpectedPassExpression` (TesterTest.cpp:157-160). -/
def unexpectedPassExpressionCase : TestCaseDef :=
  TestCaseDef.mk "unexpectedPassExpression"
    [CheckAction.expectFail "Not yet implemented." true,
     CheckAction.verify "true == true" 159 (true == true),
     CheckAction.endExpectFail]

/-- `Test::unexpectedPassEqual` (TesterTest.cpp:162-165). -/
def unexpectedPassEqualCase : TestCaseDef :=
  TestCaseDef.mk "unexpectedPassEqual"
    [CheckAction.expectFail "Cannot get it right." true,
     CheckAction.compare "2 + 2" "4" 164 (defaultCompare (2 + 2) 4)
       (defaultCompareMessage "2 + 2" "4" "4" "4"),
     CheckAction.endExpectFail]

/-- `Test::compareAs` (TesterTest.cpp:167-169): operand labels are the
stringified literals, quotes included. -/
def compareAsCase : TestCaseDef :=
  TestCaseDef.mk "compareAs"
    [CheckAction.compare "\"kill!\"" "\"hello\"" 168
      (stringLengthCompare 0 "kill!" "hello")
      (stringLengthMessage 0 "\"kill!\"" "\"hello\"")]

/-- `Test::compareAsFail` (TesterTest.cpp:171-173). -/
def compareAsFailCase : TestCaseDef :=
  TestCaseDef.mk "compareAsFail"
    [CheckAction.compare "\"meh\"" "\"hello\"" 172
      (stringLengthCompare 0 "meh" "hello")
      (stringLengthMessage 0 "\"meh\"" "\"hello\"")]

/-- `Test::compareWith` (TesterTest.cpp:175-177), epsilon 10. -/
def compareWithCase : TestCaseDef :=
  TestCaseDef.mk "compareWith"
    [CheckAction.compare "\"You rather GTFO\"" "\"hello\"" 176
      (stringLengthCompare 10 "You rather GTFO" "hello")
      (stringLengthMessage 10 "\"You rather GTFO\"" "\"hello\"")]

/-- `Test::compareWithFail` (TesterTest.cpp:179-181), epsilon 9. -/
def compareWithFailCase : TestCaseDef :=
  TestCaseDef.mk "compareWithFail"
    [CheckAction.compare "\"You rather GTFO\"" "\"hello\"" 180
      (stringLengthCompare 9 "You rather GTFO" "hello")
      (stringLengthMessage 9 "\"You rather GTFO\"" "\"hello\"")]

/-- `Test::compareImplicitConversionFail` (TesterTest.cpp:183-186):
literal `"holla"` vs the `std::string` variable `hello`. -/
def compareImplicitConversionFailCase : TestCaseDef :=
  TestCaseDef.mk "compareImplicitConversionFail"
    [CheckAction.compare "\"holla\"" "hello" 185 (defaultCompare "holla" "hello")
      (defaultCompareMessage "\"holla\"" "hello" "holla" "hello")]

/-- `Test::skip` (TesterTest.cpp:188-191): the verify after the skip is
never reached. -/
def skipCaseDef : TestCaseDef :=
  TestCaseDef.mk "skip"
    [CheckAction.skipCase 189 "This testcase is skipped.",
     CheckAction.verify "false" 190 false]

/-- `Test::setupTeardown` (TesterTest.cpp:201-203). -/
def setupTeardownCase : TestCaseDef :=
  TestCaseDef.mk "setupTeardown" [CheckAction.verify "true" 202 true]

/-- `Test::setupTeardownEmpty` (TesterTest.cpp:205). -/
def setupTeardownEmptyCase : TestCaseDef :=
  TestCaseDef.mk "setupTeardownEmpty" []

/-- `Test::setupTeardownError` (TesterTest.cpp:207-209). -/
def setupTeardownErrorCase : TestCaseDef :=
  TestCaseDef.mk "setupTeardownError" [CheckAction.verify "false" 208 false]

/-- `Test::setupTeardownSkip` (TesterTest.cpp:211-213). -/
def setupTeardownSkipCase : TestCaseDef :=
  TestCaseDef.mk "setupTeardownSkip" [CheckAction.skipCase 212 "Skipped."]

/-- The `Test` fixture suite, registered as
`t.registerTest("here.cpp", "TesterTest::Test")` with the two `addTests`
groups of its constructor (TesterTest.cpp:94-118). -/
def testSuite : Suite :=
  Suite.mk "TesterTest::Test" "here.cpp"
    [(noChecksCase, noHooks),
     (trueExpressionCase, noHooks),
     (falseExpressionCase, noHooks),
     (equalCase, noHooks),
     (nonEqualCase, noHooks),
     (expectFailCase, noHooks),
     (unexpectedPassExpressionCase, noHooks),
     (unexpectedPassEqualCase, noHooks),
     (compareAsCase, noHooks),
     (compareAsFailCase, noHooks),
     (compareWithCase, noHooks),
     (compareWithFailCase, noHooks),
     (compareImplicitConversionFailCase, noHooks),
     (skipCaseDef, noHooks),
     (setupTeardownCase, stHooks),
     (setupTeardownEmptyCase, stHooks),
     (setupTeardownErrorCase, stHooks),
     (setupTeardownSkipCase, stHooks)]

/-- `EmptyTest` (TesterTest.cpp:230), registered as
`"TesterTest::EmptyTest"` with zero cases. -/
def emptySuite : Suite :=
  Suite.mk "TesterTest::EmptyTest" "here.cpp" []

/-- The expected output of the full fixture run, transcribed from the
`expected` string of `TesterTest::test` (TesterTest.cpp:260-307), split at
the `Debug`/`Error` statement boundaries and tagged with the stream each
statement writes to (TesterTest.cpp passes the same `std::stringstream` as
both streams, so concatenating the entries in order reproduces its
expected string byte-for-byte). -/
def fullExpectedEntries : List (StreamKind × String) :=
  [(StreamKind.log, "Starting TesterTest::Test with 18 test cases...\n"),
   (StreamKind.log, "     ? [01] <unknown>()\n"),
   (StreamKind.log, "    OK [02] trueExpression()\n"),
   (StreamKind.err, "  FAIL [03] falseExpression() at here.cpp on line 129 \n        Expression 5 != 5 failed.\n"),
   (StreamKind.log, "    OK [04] equal()\n"),
   (StreamKind.err, "  FAIL [05] nonEqual() at here.cpp on line 139 \n        Values a and b are not the same, actual is\n        5 \n        but expected\n        3\n"),
   (StreamKind.log, " XFAIL [06] expectFail() at here.cpp on line 145 \n        The world is not mad yet. 2 + 2 and 5 are not equal.\n"),
   (StreamKind.log, " XFAIL [06] expectFail() at here.cpp on line 146 \n        The world is not mad yet. Expression false == true failed.\n"),
   (StreamKind.log, "    OK [06] expectFail()\n"),
   (StreamKind.err, " XPASS [07] unexpectedPassExpression() at here.cpp on line 159 \n        Expression true == true was expected to fail.\n"),
   (StreamKind.err, " XPASS [08] unexpectedPassEqual() at here.cpp on line 164 \n        2 + 2 and 4 are not expected to be equal.\n"),
   (StreamKind.log, "    OK [09] compareAs()\n"),
   (StreamKind.err, "  FAIL [10] compareAsFail() at here.cpp on line 172 \n        Length of actual \"meh\" doesn't match length of expected \"hello\" with epsilon 0\n"),
   (StreamKind.log, "    OK [11] compareWith()\n"),
   (StreamKind.err, "  FAIL [12] compareWithFail() at here.cpp on line 180 \n        Length of actual \"You rather GTFO\" doesn't match length of expected \"hello\" with epsilon 9\n"),
   (StreamKind.err, "  FAIL [13] compareImplicitConversionFail() at here.cpp on line 185 \n        Values \"holla\" and hello are not the same, actual is\n        holla \n        but expected\n        hello\n"),
   (StreamKind.log, "  SKIP [14] skip() \n        This testcase is skipped.\n"),
   (StreamKind.log, "       [15] setting up...\n"),
   (StreamKind.log, "    OK [15] setupTeardown()\n"),
   (StreamKind.log, "       [15] tearing down...\n"),
   (StreamKind.log, "       [16] setting up...\n"),
   (StreamKind.log, "     ? [16] <unknown>()\n"),
   (StreamKind.log, "       [17] setting up...\n"),
   (StreamKind.err, "  FAIL [17] setupTeardownError() at here.cpp on line 208 \n        Expression false failed.\n"),
   (StreamKind.log, "       [17] tearing down...\n"),
   (StreamKind.log, "       [18] setting up...\n"),
   (StreamKind.log, "  SKIP [18] setupTeardownSkip() \n        Skipped.\n"),
   (StreamKind.log, "       [18] tearing down...\n"),
   (StreamKind.log, "Finished TesterTest::Test with 8 errors out of 17 checks. 2 test cases didn't contain any checks!\n")]

/-- The expected output of the filtered run, copied verbatim from
`TesterTest::skipOnly` (TesterTest.cpp:337-342); the command line there is
`--only "11 14 4 9" --skip "14"`. -/
def skipOnlyExpectedOutput : String :=
  "Starting TesterTest::Test with 3 test cases...\n" ++
  "    OK [11] compareWith()\n" ++
  "    OK [04] equal()\n" ++
  "    OK [09] compareAs()\n" ++
  "Finished TesterTest::Test with 0 errors out of 3 checks.\n"

/-- The run-loop bookkeeping fields a body statement can never touch:
suite identity, padding reference, current ordinal, and the two run-loop
counters (`errorCount` is only ever incremented by the per-case
signal catch, `noCheckCount` only by the check-less report). -/
def CorePreserved (s t : RunState) : Prop :=
  t.suiteName = s.suiteName ∧ t.testFilename = s.testFilename ∧
  t.padMax = s.padMax ∧ t.testCaseId = s.testCaseId ∧
  t.errorCount = s.errorCount ∧ t.noCheckCount = s.noCheckCount

/-- A universe of C++ static types for the comparison-type resolution of
`Implementation::CommonType`: type codes together with the
`std::is_convertible` relation and the `std::common_type` operator the
template machinery consults. -/
structure TypeUniverse where
  isConvertible : Nat → Nat → Bool
  commonType : Nat → Nat → Nat

/-- `Implementation::CommonType<Actual, Expected>` (Tester.h:50-59): first
try to convert the actual type to the expected one; if that fails, fall
back to `std::common_type`. -/
def commonTypeResolve (u : TypeUniverse) (actualTy expectedTy : Nat) : Nat :=
  if u.isConvertible actualTy expectedTy then expectedTy
  else u.commonType actualTy expectedTy

/-- The comparison-type resolution of the `compare`/`compareAs` overload
chain (Tester.h:195-217): an explicitly supplied type is used verbatim
(`compareAs<T, U, V>` hands `Comparator<T>` straight to `compareWith`);
with no explicit type, two identical types compare under that type
(`compareAs<T, T, T>`), and two different types under
`Implementation::CommonType`. -/
def comparisonType (u : TypeUniverse) (explicitType : Option Nat)
    (actualTy expectedTy : Nat) : Nat :=
  match explicitType with
  | Option.some t => t
  | Option.none =>
      if actualTy = expectedTy then actualTy
      else commonTypeResolve u actualTy expectedTy

/-- The shape of every line the engine writes to the error output stream:
it is a FAIL or an XPASS report (cf. Tester.h:495-507 — the `Error` block
is the only writer to `_errorOutput`). -/
def ErrLineShape (line : String) : Prop :=
  (∃ rest, line = "  FAIL" ++ rest) ∨ (∃ rest, line = " XPASS" ++ rest)

/-- Every entry of the error stream is a FAIL or XPASS report. -/
def ErrStreamShaped (out : List (StreamKind × String)) : Prop :=
  ∀ e, e ∈ out → e.1 = StreamKind.err → ErrLineShape e.2

/-- A one-case suite whose case performs zero checks. -/
def miniEmptySuite : Suite :=
  Suite.mk "Mini" "mini.cpp" [(TestCaseDef.mk "noChecks" [], noHooks)]

/-- A one-case suite whose case skips; the check after the skip is never
reached. -/
def miniSkipSuite : Suite :=
  Suite.mk "Mini" "mini.cpp"
    [(TestCaseDef.mk "skipped"
        [CheckAction.skipCase 10 "reason",
         CheckAction.verify "false" 11 false], noHooks)]

/-- A one-case suite whose only failure happens under an active
expected-failure scope (an XFAIL-only run). -/
def miniXfailSuite : Suite :=
  Suite.mk "Mini" "mini.cpp"
    [(TestCaseDef.mk "x"
        [CheckAction.expectFail "m" true,
         CheckAction.compare "a" "b" 5 false "d",
         CheckAction.endExpectFail], noHooks)]

/-- A concrete run state for witnesses: the initial state of the full
fixture run. -/
def probeState : RunState := initState testSuite 18 18

/-- `probeState` inside test case 3 with an active expected-failure
scope. -/
def scopedProbeState : RunState :=
  { probeState with testCaseId := 3, testCaseName := "case()",
                    testCaseLine := 7,
                    expectedFailure := Option.some "m" }

/-- `probeState` inside test case 3 with no active scope. -/
def unscopedProbeState : RunState :=
  { probeState with testCaseId := 3, testCaseName := "case()",
                    testCaseLine := 7 }

/-- Hooks whose setup itself raises a case-fatal signal, with a teardown
present — for exercising the "teardown still runs when setup fails"
guarantee. -/
def failingSetupHooks : Hooks :=
  Hooks.mk (Option.some (fun _ => [CheckAction.verify "false" 1 false]))
    (Option.some teardownActions)

/-- A small concrete type universe: type 1 converts to type 2, nothing
else converts, and the common type is always type 7. -/
def sampleUniverse : TypeUniverse :=
  TypeUniverse.mk (fun actualTy expectedTy => actualTy == 1 && expectedTy == 2)
    (fun _ _ => 7)

/-- The modelled engine reproduces `TesterTest::test` exactly: exit code 1
and, statement by statement, the expected output asserted in
TesterTest.cpp:258-310. -/
theorem test_run_reproduces_fixture :
    (exec testSuite [] []).1 = 1 ∧
    (exec testSuite [] []).2.output = fullExpectedEntries := by
  constructor
  · decide
  · decide

/-- The modelled engine reproduces `TesterTest::skipOnly` exactly: exit
code 0 and the expected output asserted in TesterTest.cpp:335-343. -/
theorem skip_only_run_reproduces_fixture :
    (exec testSuite [11, 14, 4, 9] [14]).1 = 0 ∧
    allOutput (exec testSuite [11, 14, 4, 9] [14]).2.output
      = skipOnlyExpectedOutput := by
  constructor
  · decide
  · decide

/-- The modelled engine reproduces `TesterTest::emptyTest` exactly: exit
code 2 and only the "No tests to run" message
(TesterTest.cpp:313-323). -/
theorem empty_run_reproduces_fixture :
    (exec emptySuite [] []).1 = 2 ∧
    allOutput (exec emptySuite [] []).2.output
      = "No tests to run in TesterTest::EmptyTest!\n" := by
  constructor
  · decide
  · decide

/-- Behaviour of `compareWith` under an active expected-failure scope:
an equal result appends an XPASS line to the error stream and raises the
case-fatal signal; a non-equal result appends an XFAIL line to the log
stream and raises no signal.  Either way the check count grows by one. -/
theorem compareWith_scoped {α β : Type} (cmp : Comparator α β)
    (a : String) (av : α) (e : String) (ev : β) (s : RunState) (msg : String)
    (h : s.expectedFailure = Option.some msg) :
    compareWith cmp a av e ev s =
      if cmp.op av ev then
        ({ s with checkCount := s.checkCount + 1,
                  output := s.output ++
                    [(StreamKind.err, xpassCompareLine s a e)] }, Signal.failed)
      else
        ({ s with checkCount := s.checkCount + 1,
                  output := s.output ++
                    [(StreamKind.log, xfailCompareLine s msg a e)] },
         Signal.none) := by
  simp only [compareWith, h]
  cases cmp.op av ev <;>
    simp [xpassCompareLine, xfailCompareLine, checkHeader]

/-- Behaviour of `compareWith` with no active scope: an equal result is
silent, a non-equal result appends a FAIL line (with the comparator's
message) to the error stream and raises the case-fatal signal. -/
theorem compareWith_unscoped {α β : Type} (cmp : Comparator α β)
    (a : String) (av : α) (e : String) (ev : β) (s : RunState)
    (h : s.expectedFailure = Option.none) :
    compareWith cmp a av e ev s =
      if cmp.op av ev then
        ({ s with checkCount := s.checkCount + 1 }, Signal.none)
      else
        ({ s with checkCount := s.checkCount + 1,
                  output := s.output ++
                    [(StreamKind.err,
                      failCompareLine s (cmp.printErrorMessage a e))] },
         Signal.failed) := by
  simp only [compareWith, h]
  cases cmp.op av ev <;>
    simp [failCompareLine, checkHeader]

/-- Behaviour of `verifyInternal` under an active expected-failure scope,
mirroring `compareWith_scoped`. -/
theorem verifyInternal_scoped (e : String) (v : Bool) (s : RunState)
    (msg : String) (h : s.expectedFailure = Option.some msg) :
    verifyInternal e v s =
      if v then
        ({ s with checkCount := s.checkCount + 1,
                  output := s.output ++
                    [(StreamKind.err, xpassVerifyLine s e)] }, Signal.failed)
      else
        ({ s with checkCount := s.checkCount + 1,
                  output := s.output ++
                    [(StreamKind.log, xfailVerifyLine s msg e)] },
         Signal.none) := by
  simp only [verifyInternal, h]
  cases v <;> simp [xpassVerifyLine, xfailVerifyLine, checkHeader]

/-- Behaviour of `verifyInternal` with no active scope. -/
theorem verifyInternal_unscoped (e : String) (v : Bool) (s : RunState)
    (h : s.expectedFailure = Option.none) :
    verifyInternal e v s =
      if v then
        ({ s with checkCount := s.checkCount + 1 }, Signal.none)
      else
        ({ s with checkCount := s.checkCount + 1,
                  output := s.output ++
                    [(StreamKind.err, failVerifyLine s e)] },
         Signal.failed) := by
  simp only [verifyInternal, h]
  cases v <;> simp [failVerifyLine, checkHeader]

theorem corePreserved_refl (s : RunState) : CorePreserved s s :=
  ⟨rfl, rfl, rfl, rfl, rfl, rfl⟩

theorem corePreserved_trans {s t u : RunState}
    (h1 : CorePreserved s t) (h2 : CorePreserved t u) : CorePreserved s u := by
  obtain ⟨a1, b1, c1, d1, e1, f1⟩ := h1
  obtain ⟨a2, b2, c2, d2, e2, f2⟩ := h2
  exact ⟨a2.trans a1, b2.trans b1, c2.trans c1, d2.trans d1,
         e2.trans e1, f2.trans f1⟩

theorem runAction_core (funcName : String) (act : CheckAction) (s : RunState) :
    CorePreserved s (runAction funcName act s).1 := by
  cases act with
  | verify e line v =>
      simp only [runAction, verifyInternal, registerTestCase]
      cases h : s.expectedFailure <;> cases v <;>
        simp [CorePreserved]
  | compare a e line eq msg =>
      simp only [runAction, compareWith, registerTestCase]
      cases h : s.expectedFailure <;> cases eq <;>
        simp [CorePreserved]
  | skipCase line m =>
      simp [runAction, skipInternal, registerTestCase, CorePreserved]
  | expectFail m enabled =>
      simp [runAction, CorePreserved]
  | endExpectFail =>
      simp [runAction, CorePreserved]
  | print t =>
      simp [runAction, CorePreserved]

theorem runActions_core (funcName : String) (acts : List CheckAction)
    (s : RunState) : CorePreserved s (runActions funcName acts s).1 := by
  induction acts generalizing s with
  | nil => exact corePreserved_refl s
  | cons act rest ih =>
      simp only [runActions]
      cases hsig : (runAction funcName act s).2 with
      | none =>
          exact corePreserved_trans (runAction_core funcName act s)
            (ih (runAction funcName act s).1)
      | failed => exact runAction_core funcName act s
      | skipped => exact runAction_core funcName act s

theorem runTeardown_core (hooks : Hooks) (ordinal : Nat) (s : RunState) :
    CorePreserved s (runTeardown hooks ordinal s).1 := by
  cases h : hooks.teardown with
  | none => simp [runTeardown, h, corePreserved_refl]
  | some td =>
      simp only [runTeardown, h]
      exact runActions_core "teardown" (td ordinal) s

theorem corePreserved_padMax {s t : RunState} (h : CorePreserved s t) :
    t.padMax = s.padMax := h.2.2.1

theorem corePreserved_testCaseId {s t : RunState} (h : CorePreserved s t) :
    t.testCaseId = s.testCaseId := h.2.2.2.1

theorem corePreserved_errorCount {s t : RunState} (h : CorePreserved s t) :
    t.errorCount = s.errorCount := h.2.2.2.2.1

theorem corePreserved_noCheckCount {s t : RunState} (h : CorePreserved s t) :
    t.noCheckCount = s.noCheckCount := h.2.2.2.2.2

theorem runSetup_core (hooks : Hooks) (ordinal : Nat) (s : RunState) :
    CorePreserved s (runSetup hooks ordinal s).1 := by
  cases h : hooks.setup with
  | none => simp [runSetup, h, corePreserved_refl]
  | some su =>
      simp only [runSetup, h]
      exact runActions_core "setup" (su ordinal) s

/-- Setup runs exactly once when the group has a setup hook, never
otherwise. -/
theorem runSetup_runs (hooks : Hooks) (ordinal : Nat) (s : RunState) :
    (runSetup hooks ordinal s).2.1 = if hooks.setup.isSome then 1 else 0 := by
  cases h : hooks.setup <;> simp [runSetup, h]

/-- Teardown runs exactly once when the group has a teardown hook, never
otherwise. -/
theorem runTeardown_runs (hooks : Hooks) (ordinal : Nat) (s : RunState) :
    (runTeardown hooks ordinal s).2 = if hooks.teardown.isSome then 1 else 0 := by
  cases h : hooks.teardown <;> simp [runTeardown, h]

theorem caseBody_core (hooks : Hooks) (ordinal : Nat) (tc : TestCaseDef)
    (s : RunState) : CorePreserved s (caseBody hooks ordinal tc s).2.1 := by
  unfold caseBody
  cases hsig : (runSetup hooks ordinal s).2.2 with
  | none =>
      simp only [hsig]
      exact corePreserved_trans (runSetup_core hooks ordinal s)
        (runActions_core tc.name tc.body (runSetup hooks ordinal s).1)
  | failed => simp only [hsig]; exact runSetup_core hooks ordinal s
  | skipped => simp only [hsig]; exact runSetup_core hooks ordinal s

theorem caseBody_setupRuns (hooks : Hooks) (ordinal : Nat) (tc : TestCaseDef)
    (s : RunState) :
    (caseBody hooks ordinal tc s).1 = if hooks.setup.isSome then 1 else 0 := by
  unfold caseBody
  cases hsig : (runSetup hooks ordinal s).2.2 <;>
    simp only [hsig] <;> exact runSetup_runs hooks ordinal s

/-- The recorded outcome is determined by the body stage's signal,
together with whether any check registered a name. -/
theorem finishCase_outcome (hooks : Hooks) (ordinal setupRuns : Nat)
    (s2 : RunState) (sig : Signal) :
    (finishCase hooks ordinal setupRuns s2 sig).outcome =
      match sig with
      | Signal.failed => Outcome.failed
      | Signal.skipped => Outcome.skipped
      | Signal.none =>
          if s2.testCaseName = "" then Outcome.empty else Outcome.ok := by
  cases sig with
  | none => simp only [finishCase]; split <;> rfl
  | failed => rfl
  | skipped => rfl

theorem finishCase_setupRuns (hooks : Hooks) (ordinal setupRuns : Nat)
    (s2 : RunState) (sig : Signal) :
    (finishCase hooks ordinal setupRuns s2 sig).setupRuns = setupRuns := by
  cases sig with
  | none => simp only [finishCase]; split <;> rfl
  | failed => rfl
  | skipped => rfl

/-- The failure tally grows by exactly one precisely when the case's
outcome is `failed` (the run loop's per-case `catch(Exception&)`). -/
theorem finishCase_errorCount (hooks : Hooks) (ordinal setupRuns : Nat)
    (s2 : RunState) (sig : Signal) :
    (finishCase hooks ordinal setupRuns s2 sig).state.errorCount =
      s2.errorCount +
        (if (finishCase hooks ordinal setupRuns s2 sig).outcome = Outcome.failed
         then 1 else 0) := by
  cases sig with
  | failed =>
      simp only [finishCase]
      rw [corePreserved_errorCount (runTeardown_core hooks ordinal _)]
      simp
  | skipped =>
      simp only [finishCase]
      rw [corePreserved_errorCount (runTeardown_core hooks ordinal _)]
      simp
  | none =>
      simp only [finishCase]
      split
      · simp
      · rw [corePreserved_errorCount (runTeardown_core hooks ordinal _)]
        simp

/-- The check-less-case tally grows by exactly one precisely when the
outcome is `empty`. -/
theorem finishCase_noCheckCount (hooks : Hooks) (ordinal setupRuns : Nat)
    (s2 : RunState) (sig : Signal) :
    (finishCase hooks ordinal setupRuns s2 sig).state.noCheckCount =
      s2.noCheckCount +
        (if (finishCase hooks ordinal setupRuns s2 sig).outcome = Outcome.empty
         then 1 else 0) := by
  cases sig with
  | failed =>
      simp only [finishCase]
      rw [corePreserved_noCheckCount (runTeardown_core hooks ordinal _)]
      simp
  | skipped =>
      simp only [finishCase]
      rw [corePreserved_noCheckCount (runTeardown_core hooks ordinal _)]
      simp
  | none =>
      simp only [finishCase]
      split
      · simp
      · rw [corePreserved_noCheckCount (runTeardown_core hooks ordinal _)]
        simp

/-- Teardown runs exactly once per case when the group has one — whatever
the outcome — except for the `empty` outcome, where the loop reports the
placeholder and moves on without running teardown. -/
theorem finishCase_teardownRuns (hooks : Hooks) (ordinal setupRuns : Nat)
    (s2 : RunState) (sig : Signal) :
    (finishCase hooks ordinal setupRuns s2 sig).teardownRuns =
      if (finishCase hooks ordinal setupRuns s2 sig).outcome = Outcome.empty
      then 0
      else if hooks.teardown.isSome then 1 else 0 := by
  cases sig with
  | failed =>
      simp only [finishCase]
      rw [runTeardown_runs]
      simp
  | skipped =>
      simp only [finishCase]
      rw [runTeardown_runs]
      simp
  | none =>
      simp only [finishCase]
      split
      · simp
      · rw [runTeardown_runs]
        simp

/-- An `empty` outcome arises only from a signal-free body that registered
no check, and in that situation the state change is exactly: the
placeholder line appended to the log and the check-less tally bumped. -/
theorem finishCase_empty_inv (hooks : Hooks) (ordinal setupRuns : Nat)
    (s2 : RunState) (sig : Signal)
    (h : (finishCase hooks ordinal setupRuns s2 sig).outcome = Outcome.empty) :
    sig = Signal.none ∧ s2.testCaseName = "" ∧
    (finishCase hooks ordinal setupRuns s2 sig).state =
      { s2 with output := s2.output ++ [(StreamKind.log, unknownLine s2)],
                noCheckCount := s2.noCheckCount + 1 } := by
  cases sig with
  | failed => rw [finishCase_outcome] at h; exact absurd h (by simp)
  | skipped => rw [finishCase_outcome] at h; exact absurd h (by simp)
  | none =>
      rw [finishCase_outcome] at h
      by_cases hn : s2.testCaseName = ""
      · refine ⟨rfl, hn, ?_⟩
        simp only [finishCase, if_pos hn]
      · rw [if_neg hn] at h; exact absurd h (by simp)

/-- `runOneCase` bumps the failure tally exactly when the case's outcome
is `failed`; any other outcome leaves it unchanged. -/
theorem runOneCase_errorCount (hooks : Hooks) (ordinal : Nat)
    (tc : TestCaseDef) (s0 : RunState) :
    (runOneCase hooks ordinal tc s0).state.errorCount =
      s0.errorCount +
        (if (runOneCase hooks ordinal tc s0).outcome = Outcome.failed
         then 1 else 0) := by
  simp only [runOneCase]
  rw [finishCase_errorCount]
  rw [corePreserved_errorCount (caseBody_core hooks ordinal tc _)]

/-- `runOneCase` bumps the check-less tally exactly when the outcome is
`empty`. -/
theorem runOneCase_noCheckCount (hooks : Hooks) (ordinal : Nat)
    (tc : TestCaseDef) (s0 : RunState) :
    (runOneCase hooks ordinal tc s0).state.noCheckCount =
      s0.noCheckCount +
        (if (runOneCase hooks ordinal tc s0).outcome = Outcome.empty
         then 1 else 0) := by
  simp only [runOneCase]
  rw [finishCase_noCheckCount]
  rw [corePreserved_noCheckCount (caseBody_core hooks ordinal tc _)]

theorem runOneCase_setupRuns (hooks : Hooks) (ordinal : Nat)
    (tc : TestCaseDef) (s0 : RunState) :
    (runOneCase hooks ordinal tc s0).setupRuns =
      if hooks.setup.isSome then 1 else 0 := by
  simp only [runOneCase]
  rw [finishCase_setupRuns, caseBody_setupRuns]

theorem runOneCase_teardownRuns (hooks : Hooks) (ordinal : Nat)
    (tc : TestCaseDef) (s0 : RunState) :
    (runOneCase hooks ordinal tc s0).teardownRuns =
      if (runOneCase hooks ordinal tc s0).outcome = Outcome.empty then 0
      else if hooks.teardown.isSome then 1 else 0 := by
  simp only [runOneCase]
  rw [finishCase_teardownRuns]

/-- Unfolding equation for `runActions` on a non-empty body. -/
theorem runActions_cons (funcName : String) (act : CheckAction)
    (rest : List CheckAction) (s : RunState) :
    runActions funcName (act :: rest) s =
      match (runAction funcName act s).2 with
      | Signal.none => runActions funcName rest (runAction funcName act s).1
      | sig => ((runAction funcName act s).1, sig) := rfl

theorem checkHeader_shape (tag : String) (s : RunState) :
    ∃ r, checkHeader tag s = tag ++ r :=
  ⟨" [" ++ padding s.testCaseId s.padMax ++ toString s.testCaseId ++ "] " ++
    s.testCaseName ++ " at " ++ s.testFilename ++ " on line " ++
    toString s.testCaseLine ++ " \n        ",
   by simp [checkHeader, String.append_assoc]⟩

theorem errLineShape_failCompare (s : RunState) (d : String) :
    ErrLineShape (failCompareLine s d) := by
  obtain ⟨r, hr⟩ := checkHeader_shape "  FAIL" s
  exact Or.inl ⟨r ++ d ++ "\n", by simp [failCompareLine, hr, String.append_assoc]⟩

theorem errLineShape_xpassCompare (s : RunState) (a e : String) :
    ErrLineShape (xpassCompareLine s a e) := by
  obtain ⟨r, hr⟩ := checkHeader_shape " XPASS" s
  exact Or.inr ⟨r ++ a ++ " and " ++ e ++ " are not expected to be equal.\n",
    by simp [xpassCompareLine, hr, String.append_assoc]⟩

theorem errLineShape_failVerify (s : RunState) (e : String) :
    ErrLineShape (failVerifyLine s e) := by
  obtain ⟨r, hr⟩ := checkHeader_shape "  FAIL" s
  exact Or.inl ⟨r ++ "Expression " ++ e ++ " failed.\n",
    by simp [failVerifyLine, hr, String.append_assoc]⟩

theorem errLineShape_xpassVerify (s : RunState) (e : String) :
    ErrLineShape (xpassVerifyLine s e) := by
  obtain ⟨r, hr⟩ := checkHeader_shape " XPASS" s
  exact Or.inr ⟨r ++ "Expression " ++ e ++ " was expected to fail.\n",
    by simp [xpassVerifyLine, hr, String.append_assoc]⟩

theorem shaped_append {out es : List (StreamKind × String)}
    (h1 : ErrStreamShaped out) (h2 : ErrStreamShaped es) :
    ErrStreamShaped (out ++ es) := by
  intro e he hk
  rcases List.mem_append.mp he with h | h
  · exact h1 e h hk
  · exact h2 e h hk

theorem shaped_nil : ErrStreamShaped [] := by
  intro e he hk
  exact absurd he (List.not_mem_nil e)

theorem shaped_log (t : String) : ErrStreamShaped [(StreamKind.log, t)] := by
  intro e he hk
  rw [List.mem_singleton] at he
  subst he
  exact absurd hk (by simp)

theorem shaped_err {line : String} (hl : ErrLineShape line) :
    ErrStreamShaped [(StreamKind.err, line)] := by
  intro e he hk
  rw [List.mem_singleton] at he
  subst he
  exact hl

/-- No body statement ever writes anything but a FAIL or an XPASS report
to the error stream. -/
theorem runAction_shaped (funcName : String) (act : CheckAction)
    (s : RunState) (h : ErrStreamShaped s.output) :
    ErrStreamShaped (runAction funcName act s).1.output := by
  cases act with
  | verify e line v =>
      show ErrStreamShaped
        (verifyInternal e v (registerTestCase funcName line s)).1.output
      cases hEF : (registerTestCase funcName line s).expectedFailure with
      | none =>
          rw [verifyInternal_unscoped e v _ hEF]
          cases v with
          | true => exact h
          | false =>
              exact shaped_append h (shaped_err (errLineShape_failVerify _ e))
      | some m =>
          rw [verifyInternal_scoped e v _ m hEF]
          cases v with
          | true =>
              exact shaped_append h (shaped_err (errLineShape_xpassVerify _ e))
          | false => exact shaped_append h (shaped_log _)
  | compare a e line eq msg =>
      show ErrStreamShaped
        (compareWith (Comparator.mk (fun _ _ => eq) (fun _ _ => msg)) a () e ()
          (registerTestCase funcName line s)).1.output
      cases hEF : (registerTestCase funcName line s).expectedFailure with
      | none =>
          rw [compareWith_unscoped _ a () e () _ hEF]
          cases eq with
          | true => exact h
          | false =>
              exact shaped_append h (shaped_err (errLineShape_failCompare _ _))
      | some m =>
          rw [compareWith_scoped _ a () e () _ m hEF]
          cases eq with
          | true =>
              exact shaped_append h (shaped_err (errLineShape_xpassCompare _ a e))
          | false => exact shaped_append h (shaped_log _)
  | skipCase line m =>
      exact shaped_append h (shaped_log _)
  | expectFail m enabled => exact h
  | endExpectFail => exact h
  | print t => exact shaped_append h (shaped_log _)

theorem runActions_shaped (funcName : String) (acts : List CheckAction)
    (s : RunState) (h : ErrStreamShaped s.output) :
    ErrStreamShaped (runActions funcName acts s).1.output := by
  induction acts generalizing s with
  | nil => exact h
  | cons act rest ih =>
      rw [runActions_cons]
      cases hsig : (runAction funcName act s).2 with
      | none => exact ih _ (runAction_shaped funcName act s h)
      | failed => exact runAction_shaped funcName act s h
      | skipped => exact runAction_shaped funcName act s h

theorem runSetup_shaped (hooks : Hooks) (ordinal : Nat) (s : RunState)
    (h : ErrStreamShaped s.output) :
    ErrStreamShaped (runSetup hooks ordinal s).1.output := by
  cases hs : hooks.setup with
  | none => simpa [runSetup, hs] using h
  | some su =>
      simp only [runSetup, hs]
      exact runActions_shaped "setup" (su ordinal) s h

theorem runTeardown_shaped (hooks : Hooks) (ordinal : Nat) (s : RunState)
    (h : ErrStreamShaped s.output) :
    ErrStreamShaped (runTeardown hooks ordinal s).1.output := by
  cases ht : hooks.teardown with
  | none => simpa [runTeardown, ht] using h
  | some td =>
      simp only [runTeardown, ht]
      exact runActions_shaped "teardown" (td ordinal) s h

theorem caseBody_shaped (hooks : Hooks) (ordinal : Nat) (tc : TestCaseDef)
    (s : RunState) (h : ErrStreamShaped s.output) :
    ErrStreamShaped (caseBody hooks ordinal tc s).2.1.output := by
  unfold caseBody
  cases hsig : (runSetup hooks ordinal s).2.2 with
  | none =>
      simp only [hsig]
      exact runActions_shaped tc.name tc.body _ (runSetup_shaped hooks ordinal s h)
  | failed => simp only [hsig]; exact runSetup_shaped hooks ordinal s h
  | skipped => simp only [hsig]; exact runSetup_shaped hooks ordinal s h

theorem finishCase_shaped (hooks : Hooks) (ordinal setupRuns : Nat)
    (s2 : RunState) (sig : Signal) (h : ErrStreamShaped s2.output) :
    ErrStreamShaped (finishCase hooks ordinal setupRuns s2 sig).state.output := by
  cases sig with
  | failed =>
      simp only [finishCase]
      exact runTeardown_shaped hooks ordinal _ h
  | skipped =>
      simp only [finishCase]
      exact runTeardown_shaped hooks ordinal _ h
  | none =>
      simp only [finishCase]
      split
      · exact shaped_append h (shaped_log _)
      · exact runTeardown_shaped hooks ordinal _
          (shaped_append h (shaped_log _))

theorem runOneCase_shaped (hooks : Hooks) (ordinal : Nat) (tc : TestCaseDef)
    (s0 : RunState) (h : ErrStreamShaped s0.output) :
    ErrStreamShaped (runOneCase hooks ordinal tc s0).state.output := by
  simp only [runOneCase]
  exact finishCase_shaped hooks ordinal _ _ _ (caseBody_shaped hooks ordinal tc _ h)

theorem execCases_shaped (suite : Suite) (ids : List Nat) (s : RunState)
    (h : ErrStreamShaped s.output) :
    ErrStreamShaped (execCases suite ids s).output := by
  induction ids generalizing s with
  | nil => exact h
  | cons i rest ih =>
      simp only [execCases]
      cases hl : suite.cases[i - 1]? with
      | none => exact ih s h
      | some tc => exact ih _ (runOneCase_shaped tc.2 i tc.1 s h)

/-- The whole engine only ever writes FAIL and XPASS reports to the error
stream; everything else (banner, OK, SKIP, XFAIL, placeholder, summary,
hook prints, "No tests to run") goes to the log stream. -/
theorem exec_shaped (suite : Suite) (onlyIds skipIds : List Nat) :
    ErrStreamShaped (exec suite onlyIds skipIds).2.output := by
  unfold exec
  split
  · exact shaped_log _
  · exact shaped_append
      (execCases_shaped suite _ _ (shaped_log _)) (shaped_log _)

theorem finishCase_padMax (hooks : Hooks) (ordinal setupRuns : Nat)
    (s2 : RunState) (sig : Signal) :
    (finishCase hooks ordinal setupRuns s2 sig).state.padMax = s2.padMax := by
  cases sig with
  | failed =>
      simp only [finishCase]
      rw [corePreserved_padMax (runTeardown_core hooks ordinal _)]
  | skipped =>
      simp only [finishCase]
      rw [corePreserved_padMax (runTeardown_core hooks ordinal _)]
  | none =>
      simp only [finishCase]
      split
      · rfl
      · rw [corePreserved_padMax (runTeardown_core hooks ordinal _)]

theorem runOneCase_padMax (hooks : Hooks) (ordinal : Nat) (tc : TestCaseDef)
    (s0 : RunState) :
    (runOneCase hooks ordinal tc s0).state.padMax = s0.padMax := by
  simp only [runOneCase]
  rw [finishCase_padMax]
  rw [corePreserved_padMax (caseBody_core hooks ordinal tc _)]

/-- Signal produced by a `compare` body statement under an active
scope: the case-fatal signal exactly on an (unexpectedly) equal result. -/
theorem runAction_compare_sig_scoped (funcName a e : String) (line : Nat)
    (eq : Bool) (d : String) (s : RunState) (msg : String)
    (h : s.expectedFailure = Option.some msg) :
    (runAction funcName (CheckAction.compare a e line eq d) s).2 =
      if eq then Signal.failed else Signal.none := by
  show (compareWith (Comparator.mk (fun _ _ => eq) (fun _ _ => d)) a () e ()
    (registerTestCase funcName line s)).2 = _
  rw [compareWith_scoped _ a () e () _ msg
    (show (registerTestCase funcName line s).expectedFailure
       = Option.some msg from h)]
  cases eq <;> simp

/-- Signal produced by a `verify` body statement under an active scope. -/
theorem runAction_verify_sig_scoped (funcName expr : String) (line : Nat)
    (v : Bool) (s : RunState) (msg : String)
    (h : s.expectedFailure = Option.some msg) :
    (runAction funcName (CheckAction.verify expr line v) s).2 =
      if v then Signal.failed else Signal.none := by
  show (verifyInternal expr v (registerTestCase funcName line s)).2 = _
  rw [verifyInternal_scoped expr v _ msg
    (show (registerTestCase funcName line s).expectedFailure
       = Option.some msg from h)]
  cases v <;> simp

/-- Signal produced by a `verify` body statement with no active scope:
the case-fatal signal exactly on a false value. -/
theorem runAction_verify_sig_unscoped (funcName expr : String) (line : Nat)
    (v : Bool) (s : RunState)
    (h : s.expectedFailure = Option.none) :
    (runAction funcName (CheckAction.verify expr line v) s).2 =
      if v then Signal.none else Signal.failed := by
  show (verifyInternal expr v (registerTestCase funcName line s)).2 = _
  rw [verifyInternal_unscoped expr v _
    (show (registerTestCase funcName line s).expectedFailure
       = Option.none from h)]
  cases v <;> simp

/-- C1: for every check (verify, compare, or compareWith) executed while
an expected-failure scope is active and enabled: a false/not-equal result
prints an XFAIL line, raises no signal — so the case continues with the
following statements — and the check is not counted as a failure (the
check primitive leaves the state's failure tally untouched and the
run loop counts only `failed` outcomes); a true/equal result prints an
XPASS line, raises the case-fatal signal, and the case is counted as a
failure (the run loop adds exactly one to the failure tally on a `failed`
outcome). -/
theorem c1_expected_failure_inversion
    (s : RunState) (msg : String)
    (h : s.expectedFailure = Option.some msg)
    {α β : Type} (cmp : Comparator α β) (a : String) (av : α) (e : String)
    (ev : β) (expr : String) (v : Bool) (funcName : String) (line : Nat)
    (d : String) (rest : List CheckAction)
    (hooks : Hooks) (ordinal : Nat) (tc : TestCaseDef) (s0 : RunState) :
    (compareWith cmp a av e ev s =
       if cmp.op av ev then
         ({ s with checkCount := s.checkCount + 1,
                   output := s.output ++
                     [(StreamKind.err, xpassCompareLine s a e)] },
          Signal.failed)
       else
         ({ s with checkCount := s.checkCount + 1,
                   output := s.output ++
                     [(StreamKind.log, xfailCompareLine s msg a e)] },
          Signal.none)) ∧
    (verifyInternal expr v s =
       if v then
         ({ s with checkCount := s.checkCount + 1,
                   output := s.output ++
                     [(StreamKind.err, xpassVerifyLine s expr)] },
          Signal.failed)
       else
         ({ s with checkCount := s.checkCount + 1,
                   output := s.output ++
                     [(StreamKind.log, xfailVerifyLine s msg expr)] },
          Signal.none)) ∧
    (runActions funcName (CheckAction.compare a e line false d :: rest) s =
       runActions funcName rest
         ((runAction funcName (CheckAction.compare a e line false d) s).1)) ∧
    (runActions funcName (CheckAction.compare a e line true d :: rest) s =
       ((runAction funcName (CheckAction.compare a e line true d) s).1,
        Signal.failed)) ∧
    (runActions funcName (CheckAction.verify expr line false :: rest) s =
       runActions funcName rest
         ((runAction funcName (CheckAction.verify expr line false) s).1)) ∧
    (runActions funcName (CheckAction.verify expr line true :: rest) s =
       ((runAction funcName (CheckAction.verify expr line true) s).1,
        Signal.failed)) ∧
    ((runOneCase hooks ordinal tc s0).state.errorCount =
       s0.errorCount +
         (if (runOneCase hooks ordinal tc s0).outcome = Outcome.failed
          then 1 else 0)) := by
  refine ⟨compareWith_scoped cmp a av e ev s msg h,
          verifyInternal_scoped expr v s msg h, ?_, ?_, ?_, ?_,
          runOneCase_errorCount hooks ordinal tc s0⟩
  · rw [runActions_cons,
        runAction_compare_sig_scoped funcName a e line false d s msg h]
    simp
  · rw [runActions_cons,
        runAction_compare_sig_scoped funcName a e line true d s msg h]
    simp
  · rw [runActions_cons,
        runAction_verify_sig_scoped funcName expr line false s msg h]
    simp
  · rw [runActions_cons,
        runAction_verify_sig_scoped funcName expr line true s msg h]
    simp

/-- Witness for C1: a concrete state with an active scope; an expectedly
failing compare lets the case continue, an unexpectedly passing verify
raises the case-fatal signal. -/
theorem c1_expected_failure_inversion_witness :
    scopedProbeState.expectedFailure = Option.some "m" ∧
    runActions "f" [CheckAction.compare "a" "b" 5 false "d"] scopedProbeState =
      runActions "f" []
        ((runAction "f" (CheckAction.compare "a" "b" 5 false "d")
          scopedProbeState).1) ∧
    runActions "f" [CheckAction.verify "x" 5 true] scopedProbeState =
      ((runAction "f" (CheckAction.verify "x" 5 true) scopedProbeState).1,
       Signal.failed) :=
  ⟨rfl,
   (c1_expected_failure_inversion scopedProbeState "m" rfl
      (Comparator.mk (fun _ _ => false) (fun _ _ => "d")) "a" () "b" ()
      "x" true "f" 5 "d" [] noHooks 1 noChecksCase probeState).2.2.1,
   (c1_expected_failure_inversion scopedProbeState "m" rfl
      (Comparator.mk (fun _ _ => false) (fun _ _ => "d")) "a" () "b" ()
      "x" true "f" 5 "d" [] noHooks 1 noChecksCase probeState).2.2.2.2.2.1⟩

/-- C7: for every `verify(expression, value)` call with no active scope:
the check count is incremented by one; a true value changes nothing else
and execution continues with the following statements; a false value
prints exactly one FAIL line — carrying "Expression `<expression>`
failed." together with the source file and line — to the error output and
raises the case-fatal signal, which stops the remaining statements of the
case while the run loop goes on with the remaining cases. -/
theorem c7_verify_no_scope
    (s : RunState) (h : s.expectedFailure = Option.none)
    (expr funcName : String) (line : Nat) (rest : List CheckAction)
    (suite : Suite) (i : Nat) (ids : List Nat) (s0 : RunState) :
    (verifyInternal expr true s =
       ({ s with checkCount := s.checkCount + 1 }, Signal.none)) ∧
    (verifyInternal expr false s =
       ({ s with checkCount := s.checkCount + 1,
                 output := s.output ++
                   [(StreamKind.err, failVerifyLine s expr)] },
        Signal.failed)) ∧
    (failVerifyLine s expr =
       "  FAIL" ++ " [" ++ padding s.testCaseId s.padMax ++
       toString s.testCaseId ++ "] " ++ s.testCaseName ++ " at " ++
       s.testFilename ++ " on line " ++ toString s.testCaseLine ++
       " \n        " ++ "Expression " ++ expr ++ " failed.\n") ∧
    (runActions funcName (CheckAction.verify expr line true :: rest) s =
       runActions funcName rest
         ((runAction funcName (CheckAction.verify expr line true) s).1)) ∧
    (runActions funcName (CheckAction.verify expr line false :: rest) s =
       ((runAction funcName (CheckAction.verify expr line false) s).1,
        Signal.failed)) ∧
    (execCases suite (i :: ids) s0 =
       match suite.cases[i - 1]? with
       | Option.some tc => execCases suite ids (runOneCase tc.2 i tc.1 s0).state
       | Option.none => execCases suite ids s0) := by
  refine ⟨?_, ?_, rfl, ?_, ?_, rfl⟩
  · rw [verifyInternal_unscoped expr true s h]
    simp
  · rw [verifyInternal_unscoped expr false s h]
    simp
  · rw [runActions_cons,
        runAction_verify_sig_unscoped funcName expr line true s h]
    simp
  · rw [runActions_cons,
        runAction_verify_sig_unscoped funcName expr line false s h]
    simp

/-- Witness for C7: a concrete unscoped state; a true verify is silent
and only bumps the check count, a false verify aborts the rest of the
body. -/
theorem c7_verify_no_scope_witness :
    unscopedProbeState.expectedFailure = Option.none ∧
    verifyInternal "x" true unscopedProbeState =
      ({ unscopedProbeState with
          checkCount := unscopedProbeState.checkCount + 1 }, Signal.none) ∧
    runActions "f" [CheckAction.verify "x" 5 false] unscopedProbeState =
      ((runAction "f" (CheckAction.verify "x" 5 false) unscopedProbeState).1,
       Signal.failed) :=
  ⟨rfl,
   (c7_verify_no_scope unscopedProbeState rfl "x" "f" 5 [] testSuite 1 []
      probeState).1,
   (c7_verify_no_scope unscopedProbeState rfl "x" "f" 5 [] testSuite 1 []
      probeState).2.2.2.2.1⟩

/-- C9: `skip(message)` prints the SKIP line followed by the message (to
the log output), raises the skip signal — stopping the case at the skip
call, so no later statement of the case runs — without touching the check
count, and a case whose outcome is `skipped` leaves the failure tally
unchanged; a run whose only case skips exits with status 0 and reports
zero checks. -/
theorem c9_skip
    (s : RunState) (funcName m : String) (line : Nat)
    (rest : List CheckAction) (hooks : Hooks) (ordinal : Nat)
    (tc : TestCaseDef) (s0 : RunState) :
    (skipInternal m s =
       ({ s with output := s.output ++ [(StreamKind.log, skipLine s m)] },
        Signal.skipped)) ∧
    (skipLine s m =
       "  SKIP [" ++ padding s.testCaseId s.padMax ++ toString s.testCaseId ++
       "] " ++ s.testCaseName ++ " \n        " ++ m ++ "\n") ∧
    (runActions funcName (CheckAction.skipCase line m :: rest) s =
       ((runAction funcName (CheckAction.skipCase line m) s).1,
        Signal.skipped)) ∧
    ((runOneCase hooks ordinal tc s0).outcome = Outcome.skipped →
       (runOneCase hooks ordinal tc s0).state.errorCount = s0.errorCount) ∧
    ((exec miniSkipSuite [] []).1 = 0) ∧
    (allOutput (exec miniSkipSuite [] []).2.output =
       "Starting Mini with 1 test cases...\n  SKIP [1] skipped() \n        reason\nFinished Mini with 0 errors out of 0 checks.\n") := by
  refine ⟨rfl, rfl, rfl, ?_, by decide, by decide⟩
  intro hsk
  rw [runOneCase_errorCount, hsk]
  simp

/-- Witness for C9: the fixture's `skip` case under the run loop has the
`skipped` outcome and does not change the failure tally. -/
theorem c9_skip_witness :
    (runOneCase noHooks 14 skipCaseDef probeState).outcome
      = Outcome.skipped ∧
    (runOneCase noHooks 14 skipCaseDef probeState).state.errorCount
      = probeState.errorCount :=
  ⟨by decide,
   (c9_skip probeState "f" "m" 1 [] noHooks 14 skipCaseDef
      probeState).2.2.2.1 (by decide)⟩

/-- C3: `exec` returns 2 — printing only the "No tests to run" line —
exactly when the registry is empty before filtering; on a non-empty
registry it returns 1 when the run's failure tally is positive and 0 when
it is zero, as exhibited by the three fixture runs (full run: 1; filtered
all-passing run: 0; empty suite: 2 with exactly the
"No tests to run in TesterTest::EmptyTest!" line). -/
theorem c3_exit_codes (suite : Suite) (onlyIds skipIds : List Nat) :
    (suite.cases = [] →
       exec suite onlyIds skipIds =
         (2, { suiteName := suite.name, testFilename := suite.filename,
               padMax := 0, testCaseId := 0, testCaseName := "",
               testCaseLine := 0, checkCount := 0, errorCount := 0,
               noCheckCount := 0, expectedFailure := Option.none,
               output := [(StreamKind.log, noTestsLine suite.name)] })) ∧
    (suite.cases ≠ [] →
       (exec suite onlyIds skipIds).1 =
         if 0 < (exec suite onlyIds skipIds).2.errorCount then 1 else 0) ∧
    ((exec testSuite [] []).1 = 1) ∧
    ((exec testSuite [11, 14, 4, 9] [14]).1 = 0) ∧
    ((exec emptySuite [] []).1 = 2) ∧
    ((exec emptySuite [] []).2.output =
       [(StreamKind.log, "No tests to run in TesterTest::EmptyTest!\n")]) := by
  refine ⟨?_, ?_, by decide, by decide, by decide, by decide⟩
  · intro hc
    simp [exec, hc]
  · intro hc
    have hne : suite.cases.isEmpty = false := by
      cases hcs : suite.cases with
      | nil => exact absurd hcs hc
      | cons x l => simp [hcs]
    simp [exec, hne]

/-- Witness for C3: the fixture suites instantiate both hypotheses. -/
theorem c3_exit_codes_witness :
    emptySuite.cases = [] ∧
    exec emptySuite [] [] =
      (2, { suiteName := emptySuite.name, testFilename := emptySuite.filename,
            padMax := 0, testCaseId := 0, testCaseName := "",
            testCaseLine := 0, checkCount := 0, errorCount := 0,
            noCheckCount := 0, expectedFailure := Option.none,
            output := [(StreamKind.log, noTestsLine emptySuite.name)] }) ∧
    testSuite.cases ≠ [] ∧
    (exec testSuite [] []).1 =
      if 0 < (exec testSuite [] []).2.errorCount then 1 else 0 :=
  ⟨rfl,
   (c3_exit_codes emptySuite [] []).1 rfl,
   List.cons_ne_nil _ _,
   (c3_exit_codes testSuite [] []).2.1 (List.cons_ne_nil _ _)⟩

/-- C2 counterexample: with `--only "11 14 4 9"` the engine runs the
cases in the order the ordinals were given, not in registration order —
exactly what the fixture's `skipOnly` test asserts: after `--skip 14` the
OK lines appear as 11, 4, 9. The claim's "executed in registration order
(ascending ordinal), never in the order the ordinals appear on the
command line" is therefore false. -/
theorem c2_counterexample :
    selectCases 18 [11, 14, 4, 9] [] = [11, 14, 4, 9] ∧
    selectCases 18 [11, 14, 4, 9] [] ≠ [4, 9, 11, 14] ∧
    ¬ List.Sorted (· < ·) (selectCases 18 [11, 14, 4, 9] []) ∧
    selectCases 18 [11, 14, 4, 9] [14] = [11, 4, 9] ∧
    (exec testSuite [11, 14, 4, 9] [14]).2.output.map Prod.snd =
      ["Starting TesterTest::Test with 3 test cases...\n",
       "    OK [11] compareWith()\n",
       "    OK [04] equal()\n",
       "    OK [09] compareAs()\n",
       "Finished TesterTest::Test with 0 errors out of 3 checks.\n"] := by
  refine ⟨by decide, by decide, by decide, by decide, by decide⟩

/-- C2 amended: for every invocation with a non-empty `--only` list,
exactly the listed valid ordinals are executed, in the order they appear
on the command line; `--skip` then removes ordinals from that selection
and never adds any (the selection stays within the `--only` list and
within the skip-free selection). -/
theorem c2_amended (n : Nat) (onlyIds skipIds : List Nat)
    (h : onlyIds ≠ []) :
    selectCases n onlyIds skipIds =
      (onlyIds.filter (fun i => decide (1 ≤ i ∧ i ≤ n))).filter
        (fun i => !(skipIds.contains i)) ∧
    selectCases n onlyIds skipIds ⊆ onlyIds ∧
    selectCases n onlyIds skipIds ⊆ selectCases n onlyIds [] := by
  have hne : onlyIds.isEmpty = false := by
    cases onlyIds with
    | nil => exact absurd rfl h
    | cons x l => rfl
  have h1 : selectCases n onlyIds skipIds =
      (onlyIds.filter (fun i => decide (1 ≤ i ∧ i ≤ n))).filter
        (fun i => !(skipIds.contains i)) := by
    simp [selectCases, hne]
  have h2 : selectCases n onlyIds [] =
      onlyIds.filter (fun i => decide (1 ≤ i ∧ i ≤ n)) := by
    simp [selectCases, hne]
  refine ⟨h1, ?_, ?_⟩
  · rw [h1]
    intro x hx
    exact List.filter_subset' _ (List.filter_subset' _ hx)
  · rw [h1, h2]
    exact List.filter_subset' _

/-- Witness for C2 (amended) at the fixture's `skipOnly` command line. -/
theorem c2_amended_witness :
    ([11, 14, 4, 9] : List Nat) ≠ [] ∧
    selectCases 18 [11, 14, 4, 9] [14] =
      (([11, 14, 4, 9] : List Nat).filter
        (fun i => decide (1 ≤ i ∧ i ≤ 18))).filter
        (fun i => !(([14] : List Nat).contains i)) :=
  ⟨by decide, (c2_amended 18 [11, 14, 4, 9] [14] (by decide)).1⟩

/-- C4 counterexample: the fixture's `setupTeardownEmpty` case (ordinal
16) belongs to a group with both hooks, its setup runs, yet its teardown
does not run — the run loop reports the `<unknown>()` placeholder and
moves on (TesterTest.cpp's expected output has `"[16] setting up..."` but
no `"[16] tearing down..."`). The claim's "teardown each run exactly once
... regardless of the case's outcome (pass, fail, skip, or zero checks
performed)" is therefore false for the zero-check outcome. -/
theorem c4_counterexample :
    stHooks.setup.isSome = true ∧
    stHooks.teardown.isSome = true ∧
    (runOneCase stHooks 16 setupTeardownEmptyCase probeState).outcome
      = Outcome.empty ∧
    (runOneCase stHooks 16 setupTeardownEmptyCase probeState).setupRuns = 1 ∧
    (runOneCase stHooks 16 setupTeardownEmptyCase probeState).teardownRuns
      = 0 := by
  refine ⟨rfl, rfl, by decide, by decide, by decide⟩

/-- C4 amended: for every executed case of a group with setup/teardown,
setup runs exactly once whatever happens, and teardown runs exactly once
for every outcome except `empty` — in particular it still runs when a
fatal signal is raised during setup or during the case body (outcomes
`failed`/`skipped`) — while a case that performed zero checks (`empty`
outcome) runs setup but not teardown. -/
theorem c4_amended (hooks : Hooks) (ordinal : Nat) (tc : TestCaseDef)
    (s0 : RunState) :
    ((runOneCase hooks ordinal tc s0).setupRuns =
       if hooks.setup.isSome then 1 else 0) ∧
    ((runOneCase hooks ordinal tc s0).outcome ≠ Outcome.empty →
       (runOneCase hooks ordinal tc s0).teardownRuns =
         if hooks.teardown.isSome then 1 else 0) ∧
    ((runOneCase hooks ordinal tc s0).outcome = Outcome.empty →
       (runOneCase hooks ordinal tc s0).teardownRuns = 0) := by
  refine ⟨runOneCase_setupRuns hooks ordinal tc s0, ?_, ?_⟩
  · intro hne
    rw [runOneCase_teardownRuns]
    simp [hne]
  · intro he
    rw [runOneCase_teardownRuns]
    simp [he]

/-- Witness for C4 (amended): a setup that raises a case-fatal signal —
the case's outcome is `failed` and teardown still runs exactly once. -/
theorem c4_amended_witness :
    (runOneCase failingSetupHooks 1 trueExpressionCase probeState).outcome
      ≠ Outcome.empty ∧
    (runOneCase failingSetupHooks 1 trueExpressionCase probeState).teardownRuns
      = if failingSetupHooks.teardown.isSome then 1 else 0 :=
  ⟨by decide,
   (c4_amended failingSetupHooks 1 trueExpressionCase probeState).2.1
     (by decide)⟩

/-- C5 counterexample, both against the pad character and against the
width rule.  Pad character: with 18 registered cases the ordinal 1 is
padded with '0', not with a space — the fixture's first placeholder line
reads `"     ? [01] <unknown>()"`, not `"     ? [ 1] <unknown>()"`.
Width: `Tester::compareWith` (Tester.h:486, 499) passes
`_testCases.size()` — the registry size — to `padding`, not the highest
selected ordinal: under `--only "5"` the highest selected ordinal is 5,
whose digit count is 1, so the claim's width rule leaves the ordinal
unpadded (`padding 5 5 = ""`, a `[5]` bracket), yet the run prints
`"  FAIL [05] nonEqual() ..."`, padded to the registry's two digits. -/
theorem c5_counterexample :
    padding 1 18 = "0" ∧
    ("0" : String) ≠ " " ∧
    unknownLine { probeState with testCaseId := 1 } =
      "     ? [01] <unknown>()\n" ∧
    unknownLine { probeState with testCaseId := 1 } ≠
      "     ? [ 1] <unknown>()\n" ∧
    maxOrdinal (selectCases 18 [5] []) = 5 ∧
    padding 5 5 = "" ∧
    (exec testSuite [5] []).2.output.map Prod.snd =
      ["Starting TesterTest::Test with 1 test cases...\n",
       "  FAIL [05] nonEqual() at here.cpp on line 139 \n        Values a and b are not the same, actual is\n        5 \n        but expected\n        3\n",
       "Finished TesterTest::Test with 1 errors out of 1 checks.\n"] ∧
    (exec testSuite [5] []).2.output.map Prod.snd ≠
      ["Starting TesterTest::Test with 1 test cases...\n",
       "  FAIL [5] nonEqual() at here.cpp on line 139 \n        Values a and b are not the same, actual is\n        5 \n        but expected\n        3\n",
       "Finished TesterTest::Test with 1 errors out of 1 checks.\n"] := by
  refine ⟨by decide, by decide, by decide, by decide, by decide, by decide,
          by decide, by decide⟩

/-- C5 amended: the reported ordinal is left-padded with '0' characters
(not spaces) to a width equal to the digit count of the number of
registered test cases — the `_testCases.size()` reference the in-src
Tester.h:486/499 pass to `padding`, not the highest selected ordinal:
the pad is `(width - digitCount(id))` zeros, the padded ordinal has
exactly `width` characters, the run starts with the padding reference set
to the registry size, every case run leaves that reference unchanged, and
a filtered run (`--only "5"` on the 18-case fixture) pads its FAIL line
to the registry's width. -/
theorem c5_amended (id maxRef : Nat)
    (h : digitCount id ≤ digitCount maxRef)
    (suite : Suite) (onlyIds skipIds : List Nat)
    (hooks : Hooks) (ordinal : Nat) (tc : TestCaseDef) (s0 : RunState) :
    (padding id maxRef =
       String.mk (List.replicate (digitCount maxRef - digitCount id) '0')) ∧
    ((padding id maxRef).length = digitCount maxRef - digitCount id) ∧
    ((padding id maxRef ++ Nat.repr id).length = digitCount maxRef) ∧
    ((initState suite suite.cases.length
        (selectCases suite.cases.length onlyIds skipIds).length).padMax =
      suite.cases.length) ∧
    ((runOneCase hooks ordinal tc s0).state.padMax = s0.padMax) ∧
    ((exec testSuite [5] []).2.output.map Prod.snd =
      ["Starting TesterTest::Test with 1 test cases...\n",
       "  FAIL [05] nonEqual() at here.cpp on line 139 \n        Values a and b are not the same, actual is\n        5 \n        but expected\n        3\n",
       "Finished TesterTest::Test with 1 errors out of 1 checks.\n"]) := by
  refine ⟨rfl, ?_, ?_, rfl, runOneCase_padMax hooks ordinal tc s0, by decide⟩
  · show (String.mk (List.replicate (digitCount maxRef - digitCount id) '0')).length
      = digitCount maxRef - digitCount id
    simp [String.length]
  · rw [String.length_append]
    have h2 : (padding id maxRef).length
        = digitCount maxRef - digitCount id := by
      show (String.mk (List.replicate (digitCount maxRef - digitCount id) '0')).length
        = digitCount maxRef - digitCount id
      simp [String.length]
    rw [h2]
    show digitCount maxRef - digitCount id + digitCount id = digitCount maxRef
    exact Nat.sub_add_cancel h

/-- Witness for C5 (amended) at ordinal 5 under the fixture's registry
size 18 (the `--only "5"` run: `[05]`). -/
theorem c5_amended_witness :
    digitCount 5 ≤ digitCount 18 ∧
    (padding 5 18 ++ Nat.repr 5).length = digitCount 18 :=
  ⟨by decide,
   (c5_amended 5 18 (by decide) testSuite [] [] noHooks 1 noChecksCase
      probeState).2.2.1⟩

/-- C6: a case that runs to completion with zero checks performed (the
`empty` outcome) is counted in the check-less tally (exactly one more),
leaves the failure tally untouched, and its report is the placeholder
line `? [<pad><id>] <unknown>()` appended to the output; the summary's
trailing "<E> test cases didn't contain any checks!" clause is emitted
exactly when that tally is positive; a run whose only case is check-less
still exits with status 0. -/
theorem c6_zero_check_case
    (hooks : Hooks) (ordinal : Nat) (tc : TestCaseDef) (s0 : RunState)
    (h : (runOneCase hooks ordinal tc s0).outcome = Outcome.empty)
    (nm : String) (F C E : Nat) :
    ((runOneCase hooks ordinal tc s0).state.noCheckCount
       = s0.noCheckCount + 1) ∧
    ((runOneCase hooks ordinal tc s0).state.errorCount = s0.errorCount) ∧
    (∃ mid, (runOneCase hooks ordinal tc s0).state.output =
       mid ++ [(StreamKind.log,
         "     ? [" ++ padding ordinal s0.padMax ++ toString ordinal ++
         "] <unknown>()\n")]) ∧
    (0 < E → finishedLine nm F C E =
       "Finished " ++ nm ++ " with " ++ toString F ++ " errors out of " ++
       toString C ++ " checks." ++
       (" " ++ toString E ++ " test cases didn't contain any checks!") ++
       "\n") ∧
    (E = 0 → finishedLine nm F C E =
       "Finished " ++ nm ++ " with " ++ toString F ++ " errors out of " ++
       toString C ++ " checks." ++ "\n") ∧
    ((exec miniEmptySuite [] []).1 = 0) ∧
    (allOutput (exec miniEmptySuite [] []).2.output =
       "Starting Mini with 1 test cases...\n     ? [1] <unknown>()\nFinished Mini with 0 errors out of 0 checks. 1 test cases didn't contain any checks!\n") := by
  refine ⟨?_, ?_, ?_, ?_, ?_, by decide, by decide⟩
  · rw [runOneCase_noCheckCount, h]
    simp
  · rw [runOneCase_errorCount, h]
    simp
  · simp only [runOneCase] at h ⊢
    obtain ⟨hsig, hname, hstate⟩ := finishCase_empty_inv _ _ _ _ _ h
    rw [hstate]
    have hid := corePreserved_testCaseId (caseBody_core hooks ordinal tc
      { s0 with testCaseId := ordinal, testCaseName := "",
                expectedFailure := Option.none })
    have hpad := corePreserved_padMax (caseBody_core hooks ordinal tc
      { s0 with testCaseId := ordinal, testCaseName := "",
                expectedFailure := Option.none })
    exact ⟨(caseBody hooks ordinal tc
      { s0 with testCaseId := ordinal, testCaseName := "",
                expectedFailure := Option.none }).2.1.output,
      by simp [unknownLine, hid, hpad]⟩
  · intro hE
    simp only [finishedLine, if_pos hE]
  · intro hE
    subst hE
    simp [finishedLine]

/-- Witness for C6: the fixture's `setupTeardownEmpty` case has the
`empty` outcome and bumps only the check-less tally. -/
theorem c6_zero_check_case_witness :
    (runOneCase stHooks 16 setupTeardownEmptyCase probeState).outcome
      = Outcome.empty ∧
    (runOneCase stHooks 16 setupTeardownEmptyCase probeState).state.noCheckCount
      = probeState.noCheckCount + 1 :=
  ⟨by decide,
   (c6_zero_check_case stHooks 16 setupTeardownEmptyCase probeState
      (by decide) "n" 1 2 1).1⟩

/-- C8: comparison-type resolution without an explicit comparator picks
the expected value's type when the actual type is convertible to it, and
the common type of the two otherwise (identical types compare under that
very type); an explicitly supplied comparator-parameterizing type is used
verbatim, ignoring the convertibility search, and an explicitly supplied
comparator instance alone decides the outcome of `compareWith`. -/
theorem c8_comparison_type_resolution
    (u : TypeUniverse) (actualTy expectedTy t : Nat)
    {α β : Type} (cmp : Comparator α β) (a : String) (av : α) (e : String)
    (ev : β) (s : RunState)
    (h : s.expectedFailure = Option.none) :
    (u.isConvertible actualTy expectedTy = true →
       commonTypeResolve u actualTy expectedTy = expectedTy) ∧
    (u.isConvertible actualTy expectedTy = false →
       commonTypeResolve u actualTy expectedTy
         = u.commonType actualTy expectedTy) ∧
    (comparisonType u (Option.some t) actualTy expectedTy = t) ∧
    (comparisonType u Option.none actualTy actualTy = actualTy) ∧
    (actualTy ≠ expectedTy →
       comparisonType u Option.none actualTy expectedTy
         = commonTypeResolve u actualTy expectedTy) ∧
    ((compareWith cmp a av e ev s).2 =
       if cmp.op av ev then Signal.none else Signal.failed) := by
  refine ⟨?_, ?_, rfl, ?_, ?_, ?_⟩
  · intro hc
    simp [commonTypeResolve, hc]
  · intro hc
    simp [commonTypeResolve, hc]
  · simp [comparisonType]
  · intro hne
    simp [comparisonType, hne]
  · rw [compareWith_unscoped cmp a av e ev s h]
    cases hop : cmp.op av ev <;> simp [hop]

/-- Witness for C8 in a concrete type universe where type 1 converts to
type 2 but type 2 does not convert to type 1. -/
theorem c8_comparison_type_resolution_witness :
    sampleUniverse.isConvertible 1 2 = true ∧
    commonTypeResolve sampleUniverse 1 2 = 2 ∧
    sampleUniverse.isConvertible 2 1 = false ∧
    commonTypeResolve sampleUniverse 2 1 = sampleUniverse.commonType 2 1 :=
  ⟨rfl,
   (c8_comparison_type_resolution sampleUniverse 1 2 5
      (Comparator.mk (fun (_ : Unit) (_ : Unit) => true) (fun _ _ => ""))
      "a" () "b" () unscopedProbeState rfl).1 rfl,
   rfl,
   (c8_comparison_type_resolution sampleUniverse 2 1 5
      (Comparator.mk (fun (_ : Unit) (_ : Unit) => true) (fun _ _ => ""))
      "a" () "b" () unscopedProbeState rfl).2.1 rfl⟩

/-- C10: under an active scope a check writes its XFAIL line to the log
stream while XPASS goes to the error stream; without a scope a failing
check writes its FAIL line to the error stream; across a whole run the
error stream receives nothing but FAIL and XPASS reports — so a run whose
failures are all expected (the XFAIL-only mini suite) writes nothing to
the error stream. -/
theorem c10_stream_routing
    (s : RunState) (msg : String) (h : s.expectedFailure = Option.some msg)
    {α β : Type} (cmp : Comparator α β) (a : String) (av : α) (e : String)
    (ev : β) (expr : String) (v : Bool)
    (s2 : RunState) (h2 : s2.expectedFailure = Option.none)
    (suite : Suite) (onlyIds skipIds : List Nat) :
    ((compareWith cmp a av e ev s).1.output =
       s.output ++
         [if cmp.op av ev then (StreamKind.err, xpassCompareLine s a e)
          else (StreamKind.log, xfailCompareLine s msg a e)]) ∧
    ((verifyInternal expr v s).1.output =
       s.output ++
         [if v then (StreamKind.err, xpassVerifyLine s expr)
          else (StreamKind.log, xfailVerifyLine s msg expr)]) ∧
    ((compareWith cmp a av e ev s2).1.output =
       s2.output ++
         (if cmp.op av ev then []
          else [(StreamKind.err,
                 failCompareLine s2 (cmp.printErrorMessage a e))])) ∧
    ((verifyInternal expr v s2).1.output =
       s2.output ++
         (if v then [] else [(StreamKind.err, failVerifyLine s2 expr)])) ∧
    ErrStreamShaped (exec suite onlyIds skipIds).2.output ∧
    (streamOf StreamKind.err (exec miniXfailSuite [] []).2.output = []) ∧
    ((exec miniXfailSuite [] []).1 = 0) := by
  refine ⟨?_, ?_, ?_, ?_, exec_shaped suite onlyIds skipIds,
          by decide, by decide⟩
  · rw [compareWith_scoped cmp a av e ev s msg h]
    cases hop : cmp.op av ev <;> simp [hop]
  · rw [verifyInternal_scoped expr v s msg h]
    cases v <;> simp
  · rw [compareWith_unscoped cmp a av e ev s2 h2]
    cases hop : cmp.op av ev <;> simp [hop]
  · rw [verifyInternal_unscoped expr v s2 h2]
    cases v <;> simp

/-- Witness for C10 at concrete scoped/unscoped states: the XFAIL-only
run leaves the error stream empty. -/
theorem c10_stream_routing_witness :
    scopedProbeState.expectedFailure = Option.some "m" ∧
    unscopedProbeState.expectedFailure = Option.none ∧
    streamOf StreamKind.err (exec miniXfailSuite [] []).2.output = [] :=
  ⟨rfl, rfl,
   (c10_stream_routing scopedProbeState "m" rfl
      (Comparator.mk (fun (_ : Unit) (_ : Unit) => false) (fun _ _ => "d"))
      "a" () "b" () "x" true unscopedProbeState rfl miniXfailSuite []
      []).2.2.2.2.2.1⟩

end Corrade
